import Mathlib

/-!
Verification of the Taddy podcast-API adapter (n8n-taddy).

Shallow embedding of the repository's pure core:
  * `utils/validators.ts` (validateUuid, validatePaginationParams,
    sanitizeSearchTerm, validateDuration, validateFilterValues, ...)
  * `utils/queryBuilder.ts` (buildFieldSelection, the per-schema field-list
    builders, buildSearchQuery)
  * `utils/resultProcessor.ts` (processSearchResults,
    processPodcastSeriesResult, processTranscriptResult)
  * the search-term assembly of `executeSearchContent` in TaddyApi.node.ts.

JavaScript strings are embedded as Lean `String`/`List Char`; JS `undefined`
and `null` become `Option`; JS numbers that the code treats as integers
become `Int`; functions that `throw` become `Except String`.
-/

namespace Taddy

/-- JS `Array.prototype.join(sep)` on a list of strings. -/
def joinSep (sep : String) : List String → String
  | [] => ""
  | [s] => s
  | s :: ss => s ++ sep ++ joinSep sep ss

/-- The WhiteSpace and LineTerminator code points that JS
`String.prototype.trim` removes (ECMA-262). -/
def jsWhitespace (c : Char) : Bool :=
  c = ' ' || c = '\t' || c = '\n' || c = '\r' ||
  c = '\x0b' || c = '\x0c' || c = '\u00a0' || c = '\u1680' ||
  ('\u2000' ≤ c && c ≤ '\u200a') || c = '\u2028' || c = '\u2029' ||
  c = '\u202f' || c = '\u205f' || c = '\u3000' || c = '\ufeff'

/-- JS `String.prototype.trim` on a character list: drop leading and
trailing whitespace. -/
def jsTrim (l : List Char) : List Char :=
  ((l.dropWhile jsWhitespace).reverse.dropWhile jsWhitespace).reverse

/-- JS `String.prototype.trim`. -/
def jsTrimStr (s : String) : String := ⟨jsTrim s.data⟩

/-- JS `String.prototype.split` with a one-character separator, on
character lists (the source only splits on `","` and `"-"`). -/
def splitOnChar (sep : Char) : List Char → List (List Char)
  | [] => [[]]
  | c :: cs =>
    if c = sep then [] :: splitOnChar sep cs
    else
      match splitOnChar sep cs with
      | g :: gs => (c :: g) :: gs
      | [] => [[c]]

/-- The characters removed by `sanitizeSearchTerm`'s regex
`/["\\\n\r\t]/g` (validators.ts). -/
def sanitizedChar (c : Char) : Bool :=
  c = '"' || c = '\\' || c = '\n' || c = '\r' || c = '\t'

/-- Embedding of `sanitizeSearchTerm` (validators.ts): remove quote, backslash, newline,
carriage-return and tab characters, then trim. -/
def sanitizeSearchTerm (term : String) : String :=
  ⟨jsTrim (term.data.filter (fun c => !sanitizedChar c))⟩

/-- Embedding of `validatePaginationParams` (validators.ts).  Inputs are optional JS
numbers; `page || 1` replaces an absent or zero page by the default, and
the result is clamped by `Math.max`/`Math.min`. -/
def validatePaginationParams (page limitPerPage : Option Int) : Int × Int :=
  let p : Int := match page with | none => 1 | some v => if v = 0 then 1 else v
  let l : Int := match limitPerPage with | none => 10 | some v => if v = 0 then 10 else v
  (max 1 (min 20 p), max 1 (min 25 l))

/-- Embedding of `validateSearchTerm` (validators.ts). -/
def validateSearchTerm (term : String) : Bool :=
  let s := sanitizeSearchTerm term
  1 ≤ s.length && s.length ≤ 500

/-- ASCII hexadecimal digit, as matched case-insensitively by the UUID
regex `[0-9a-f]` with the `i` flag. -/
def isHexDigit (c : Char) : Bool :=
  ('0' ≤ c && c ≤ '9') || ('a' ≤ c && c ≤ 'f') || ('A' ≤ c && c ≤ 'F')

/-- Embedding of `validateUuid` (validators.ts): the canonical 8-4-4-4-12 pattern with
version nibble 1-5 and variant nibble 8/9/a/b, case-insensitive. -/
def validateUuid (s : String) : Bool :=
  match splitOnChar '-' s.data with
  | [g1, g2, g3, g4, g5] =>
    g1.length = 8 && g2.length = 4 && g3.length = 4 && g4.length = 4 &&
    g5.length = 12 &&
    (g1 ++ g2 ++ g3 ++ g4 ++ g5).all isHexDigit &&
    (match g3 with | c :: _ => '1' ≤ c && c ≤ '5' | [] => false) &&
    (match g4 with
     | c :: _ => c = '8' || c = '9' || c = 'a' || c = 'b' || c = 'A' || c = 'B'
     | [] => false)
  | _ => false

/-- Embedding of `validateCountryCode` (validators.ts): exactly two uppercase ASCII
letters. -/
def validateCountryCode (s : String) : Bool :=
  s.length = 2 && s.data.all (fun c => 'A' ≤ c && c ≤ 'Z')

/-- Embedding of `validateLanguageCode` (validators.ts): exactly two lowercase ASCII
letters. -/
def validateLanguageCode (s : String) : Bool :=
  s.length = 2 && s.data.all (fun c => 'a' ≤ c && c ≤ 'z')

/-- Embedding of `validateDateString` (validators.ts) as applied to the integer epoch
values the node hands it: `new Date(n)` is a valid date exactly when the
time value is within ECMA-262's bound of ±8.64e15 milliseconds. -/
def validateDateString (n : Int) : Bool :=
  n.natAbs ≤ 8640000000000000

/-- Embedding of `validateDuration` (validators.ts): positive and at most 24 hours in
seconds. -/
def validateDuration (duration : Int) : Bool :=
  0 < duration && duration ≤ 86400

/-- The `SearchFilters` interface (queryBuilder.ts).  Every member is
optional; JS `undefined` is `none`. -/
structure SearchFilters where
  filterForTypes : Option (List String) := none
  filterForCountries : Option (List String) := none
  filterForLanguages : Option (List String) := none
  filterForGenres : Option (List String) := none
  filterForSeriesUuids : Option (List String) := none
  filterForPodcastContentType : Option String := none
  filterForPublishedAfter : Option Int := none
  filterForPublishedBefore : Option Int := none
  filterForLastUpdatedAfter : Option Int := none
  filterForLastUpdatedBefore : Option Int := none
  filterForDurationLessThan : Option Int := none
  filterForDurationGreaterThan : Option Int := none
  filterForTotalEpisodesLessThan : Option Int := none
  filterForTotalEpisodesGreaterThan : Option Int := none
  filterForHasTranscript : Option Bool := none
  filterForHasChapters : Option Bool := none
  isSafeMode : Option Bool := none
  deriving Repr, DecidableEq

/-- The country-code loop of `validateFilterValues`: one error per element
failing `validateCountryCode` (a `forEach` of conditional pushes, i.e. a
filter-then-map). -/
def countryErrors (f : SearchFilters) : List String :=
  match f.filterForCountries with
  | none => []
  | some cs =>
    (cs.filter (fun c => !validateCountryCode c)).map
      (fun c => "Invalid country code: " ++ c)

/-- The language-code loop of `validateFilterValues`. -/
def languageErrors (f : SearchFilters) : List String :=
  match f.filterForLanguages with
  | none => []
  | some ls =>
    (ls.filter (fun l => !validateLanguageCode l)).map
      (fun l => "Invalid language code: " ++ l)

/-- The series-UUID loop of `validateFilterValues`. -/
def uuidErrors (f : SearchFilters) : List String :=
  match f.filterForSeriesUuids with
  | none => []
  | some us =>
    (us.filter (fun u => !validateUuid u)).map (fun u => "Invalid UUID: " ++ u)

/-- One date-bound check of `validateFilterValues`: the JS guard
`filters.x && !validateDateString(filters.x)` (a zero value is falsy and
skips the check). -/
def dateError (v : Option Int) (msg : String) : List String :=
  match v with
  | none => []
  | some n => if n ≠ 0 && !validateDateString n then [msg] else []

/-- One duration-bound check of `validateFilterValues`: the JS guard
`filters.x !== undefined && !validateDuration(filters.x)`. -/
def durationError (v : Option Int) (msg : String) : List String :=
  match v with
  | none => []
  | some d => if !validateDuration d then [msg] else []

/-- Embedding of `validateFilterValues` (validators.ts): aggregate all per-field format
failures into one list of error strings, in source order. -/
def validateFilterValues (f : SearchFilters) : List String :=
  countryErrors f ++ languageErrors f ++ uuidErrors f ++
  dateError f.filterForPublishedAfter "Invalid published after date format" ++
  dateError f.filterForPublishedBefore "Invalid published before date format" ++
  dateError f.filterForLastUpdatedAfter "Invalid last updated after date format" ++
  dateError f.filterForLastUpdatedBefore "Invalid last updated before date format" ++
  durationError f.filterForDurationLessThan "Invalid duration less than value" ++
  durationError f.filterForDurationGreaterThan "Invalid duration greater than value"

/-- Keys of the `PODCAST_SERIES_FIELDS` table (queryBuilder.ts). -/
def PODCAST_SERIES_FIELD_KEYS : List String :=
  ["uuid", "name", "description", "imageUrl", "itunesId", "rssUrl",
   "websiteUrl", "language", "countries", "totalEpisodeCount",
   "popularityRank", "genres", "episodes"]

/-- Keys of the `PODCAST_EPISODE_FIELDS` table (queryBuilder.ts). -/
def PODCAST_EPISODE_FIELD_KEYS : List String :=
  ["uuid", "name", "description", "audioUrl", "websiteUrl", "datePublished",
   "duration", "episodeNumber", "seasonNumber", "podcastSeries",
   "transcript", "chapters"]

/-- The `episodeOnlyFields` exclusion list of `buildFieldSelection`
(queryBuilder.ts). -/
def episodeOnlyFields : List String :=
  ["audioUrl", "websiteUrl", "datePublished", "duration", "episodeNumber",
   "seasonNumber"]

/-- The `podcastOnlyFields` exclusion list of `buildFieldSelection`
(queryBuilder.ts). -/
def podcastOnlyFields : List String :=
  ["itunesId", "rssUrl", "websiteUrl", "totalEpisodesCount"]

/-- The `validFields` list computed by `buildFieldSelection`
(queryBuilder.ts): filter out the other schema's exclusive fields, then
prepend `uuid` when absent. -/
def buildFieldSelectionList (fields : List String) (contentType : String) :
    List String :=
  let validFields := fields.filter fun field =>
    if contentType = "podcastEpisodes" && podcastOnlyFields.contains field then
      false
    else if contentType = "podcastSeries" && episodeOnlyFields.contains field then
      false
    else true
  if validFields.contains "uuid" then validFields else "uuid" :: validFields

/-- Embedding of `buildFieldSelection` (queryBuilder.ts): render the valid
field list one per line. -/
def buildFieldSelection (fields : List String) (contentType : String) : String :=
  joinSep "\n\t\t\t\t\t" (buildFieldSelectionList fields contentType)

/-- The `podcastFields` list computed by `buildPodcastSeriesFieldSelection`
(queryBuilder.ts): keep only scalar podcast-series fields, then prepend
`uuid` when absent. -/
def podcastSeriesFieldList (fields : List String) : List String :=
  let availableFields :=
    PODCAST_SERIES_FIELD_KEYS.filter fun f => f ≠ "genres" && f ≠ "episodes"
  let podcastFields := fields.filter fun field => availableFields.contains field
  if podcastFields.contains "uuid" then podcastFields
  else "uuid" :: podcastFields

/-- The `episodeFields` list computed by `buildEpisodeFieldSelection`
(queryBuilder.ts): keep only scalar episode fields, then prepend `uuid`
when absent. -/
def episodeFieldList (fields : List String) : List String :=
  let availableFields := PODCAST_EPISODE_FIELD_KEYS.filter fun f =>
    f ≠ "podcastSeries" && f ≠ "transcript" && f ≠ "chapters"
  let episodeFields := fields.filter fun field => availableFields.contains field
  if episodeFields.contains "uuid" then episodeFields
  else "uuid" :: episodeFields

/-- Embedding of `buildEpisodeFieldSelection` (queryBuilder.ts). -/
def buildEpisodeFieldSelection (fields : List String := ["uuid", "name", "description"])
    (includePodcastSeries : Bool := true) (includeTranscript : Bool := false)
    (includeChapters : Bool := false) : String :=
  let fieldSelection := joinSep "\n\t\t\t\t" (episodeFieldList fields)
  let fieldSelection :=
    if includePodcastSeries then
      let basicPodcastFields := ["uuid", "name"] ++
        (if fields.contains "podcastDescription" then ["description"] else []) ++
        (if fields.contains "podcastImageUrl" then ["imageUrl"] else []) ++
        (if fields.contains "itunesId" then ["itunesId"] else []) ++
        (if fields.contains "rssUrl" then ["rssUrl"] else [])
      fieldSelection ++ "\n\t\t\t\tpodcastSeries \x7b\n\t\t\t\t\t" ++
        joinSep "\n\t\t\t\t\t" basicPodcastFields.eraseDups ++ "\n\t\t\t\t\x7d"
    else fieldSelection
  let fieldSelection :=
    if includeTranscript then fieldSelection ++ "\n\t\t\t\ttranscript"
    else fieldSelection
  if includeChapters then
    fieldSelection ++
      "\n\t\t\t\tchapters \x7b\n\t\t\t\t\tid\n\t\t\t\t\ttitle\n\t\t\t\t\tstartTimecode\n\t\t\t\t\x7d"
  else fieldSelection

/-- Embedding of `buildPodcastSeriesFieldSelection` (queryBuilder.ts). -/
def buildPodcastSeriesFieldSelection (fields : List String := ["uuid", "name", "description"])
    (includeGenres : Bool := false) (includeEpisodes : Bool := false)
    (episodeFields : List String := ["uuid", "name", "description"]) : String :=
  let fieldSelection := joinSep "\n\t\t\t\t" (podcastSeriesFieldList fields)
  let fieldSelection :=
    if includeGenres || fields.contains "genres" then
      fieldSelection ++ "\n\t\t\t\tgenres \x7b\n\t\t\t\t\tname\n\t\t\t\t\x7d"
    else fieldSelection
  if includeEpisodes then
    let episodeFieldSelection := buildEpisodeFieldSelection episodeFields false false false
    fieldSelection ++ "\n\t\t\t\tepisodes \x7b\n\t\t\t\t\t" ++
      (episodeFieldSelection.replace "\n\t\t\t\t" "\n\t\t\t\t\t") ++ "\n\t\t\t\t\x7d"
  else fieldSelection

/-- The `SearchOptions` interface (queryBuilder.ts); the enums are embedded
as their literal strings. -/
structure SearchOptions where
  term : String
  page : Option Int := none
  limitPerPage : Option Int := none
  sortBy : Option String := none
  matchType : Option String := none
  deriving Repr, DecidableEq

/-- The `languageMap` lookup of `buildSearchQuery` (queryBuilder.ts)
followed by the `|| lang.toUpperCase()` fallback, applied to the
lower-cased code. -/
def mapLanguageEnum (lang : String) : String :=
  match lang.toLower with
  | "en" => "ENGLISH" | "es" => "SPANISH" | "fr" => "FRENCH"
  | "de" => "GERMAN" | "it" => "ITALIAN" | "pt" => "PORTUGUESE"
  | "ru" => "RUSSIAN" | "ja" => "JAPANESE" | "ko" => "KOREAN"
  | "zh" => "CHINESE" | "ar" => "ARABIC" | "hi" => "HINDI"
  | "nl" => "DUTCH_FLEMISH" | "sv" => "SWEDISH" | "no" => "NORWEGIAN"
  | "da" => "DANISH" | "fi" => "FINNISH" | "pl" => "POLISH"
  | "tr" => "TURKISH" | "cs" => "CZECH" | "hu" => "HUNGARIAN"
  | "ro" => "ROMANIAN_MOLDOVAN" | "sk" => "SLOVAK" | "bg" => "BULGARIAN"
  | "hr" => "CROATIAN" | "sl" => "SLOVENIAN" | "sr" => "SERBIAN"
  | "mk" => "MACEDONIAN" | "bs" => "BOSNIAN" | "sq" => "ALBANIAN"
  | "lv" => "LATVIAN" | "lt" => "LITHUANIAN" | "et" => "ESTONIAN"
  | "mt" => "MALTESE" | "ga" => "IRISH" | "cy" => "WELSH"
  | "is" => "ICELANDIC" | "fo" => "FAROESE" | "he" => "HEBREW"
  | "th" => "THAI" | "vi" => "VIETNAMESE" | "id" => "INDONESIAN"
  | "ms" => "MALAY" | "tl" => "TAGALOG" | "sw" => "SWAHILI"
  | "am" => "AMHARIC" | "bn" => "BENGALI" | "gu" => "GUJARATI"
  | "kn" => "KANNADA" | "ml" => "MALAYALAM" | "mr" => "MARATHI"
  | "ne" => "NEPALI" | "or" => "ORIYA" | "pa" => "PUNJABI"
  | "si" => "SINHALA" | "ta" => "TAMIL" | "te" => "TELUGU"
  | "ur" => "URDU" | "fa" => "FARSI" | "ku" => "KURDISH"
  | "ka" => "GEORGIAN" | "hy" => "ARMENIAN" | "az" => "AZERBAIJANI"
  | "kk" => "KAZAKH" | "ky" => "KYRGYZ" | "tg" => "TAJIK"
  | "tk" => "TURKMEN" | "uz" => "UZBEK" | "mn" => "MONGOLIAN"
  | "my" => "BURMESE" | "km" => "CENTRAL_KHMER" | "lo" => "LAO"
  | "bo" => "TIBETAN" | "dz" => "DZONGKHA"
  | _ => lang.toUpper

/-- The `filterForTypes` push of `buildSearchQuery` (queryBuilder.ts): a
present non-empty list contributes one parameter, rendered bare when the
list is a singleton and bracketed otherwise. -/
def typesParams (f : SearchFilters) : List String :=
  match f.filterForTypes with
  | some (t :: ts) =>
    if ts.isEmpty then ["filterForTypes: " ++ t]
    else ["filterForTypes: [" ++ joinSep ", " (t :: ts) ++ "]"]
  | _ => []

/-- The `filterForLanguages` push of `buildSearchQuery` (queryBuilder.ts). -/
def languagesParams (f : SearchFilters) : List String :=
  match f.filterForLanguages with
  | some (l :: ls) =>
    let languageEnums := (l :: ls).map mapLanguageEnum
    if ls.isEmpty then ["filterForLanguages: " ++ mapLanguageEnum l]
    else ["filterForLanguages: [" ++ joinSep ", " languageEnums ++ "]"]
  | _ => []

/-- One truthiness-guarded numeric parameter push of `buildSearchQuery`
(`if (filters.x)`: a present, non-zero value is pushed). -/
def truthyIntParam (v : Option Int) (name : String) : List String :=
  match v with
  | some n => if n ≠ 0 then [name ++ ": " ++ toString n] else []
  | none => []

/-- One definedness-guarded numeric parameter push of `buildSearchQuery`
(`if (filters.x !== undefined)`). -/
def definedIntParam (v : Option Int) (name : String) : List String :=
  match v with
  | some n => [name ++ ": " ++ toString n]
  | none => []

/-- One definedness-guarded boolean parameter push of `buildSearchQuery`. -/
def definedBoolParam (v : Option Bool) (name : String) : List String :=
  match v with
  | some b => [name ++ ": " ++ toString b]
  | none => []

/-- The `allParams` array of `buildSearchQuery` (queryBuilder.ts), in push
order. -/
def searchAllParams (o : SearchOptions) (f : SearchFilters) : List String :=
  ["term: \"" ++ o.term ++ "\"",
   "page: " ++ toString (o.page.getD 1),
   "limitPerPage: " ++ toString (o.limitPerPage.getD 10),
   "sortBy: " ++ o.sortBy.getD "POPULARITY",
   "matchBy: " ++ o.matchType.getD "MOST_TERMS"] ++
  typesParams f ++
  languagesParams f ++
  truthyIntParam f.filterForPublishedAfter "filterForPublishedAfter" ++
  truthyIntParam f.filterForPublishedBefore "filterForPublishedBefore" ++
  definedIntParam f.filterForDurationLessThan "filterForDurationLessThan" ++
  definedIntParam f.filterForDurationGreaterThan "filterForDurationGreaterThan" ++
  definedIntParam f.filterForTotalEpisodesLessThan "filterForTotalEpisodesLessThan" ++
  definedIntParam f.filterForTotalEpisodesGreaterThan "filterForTotalEpisodesGreaterThan" ++
  definedBoolParam f.filterForHasTranscript "filterForHasTranscript" ++
  definedBoolParam f.filterForHasChapters "filterForHasChapters" ++
  definedBoolParam f.isSafeMode "isSafeMode"

/-- The `includesPodcasts` flag of `buildSearchQuery`: no type filter, or
one naming PODCASTSERIES. -/
def includesPodcasts (f : SearchFilters) : Bool :=
  match f.filterForTypes with
  | none => true
  | some ts => ts.contains "PODCASTSERIES"

/-- The `includesEpisodes` flag of `buildSearchQuery`: no type filter, or
one naming PODCASTEPISODE. -/
def includesEpisodes (f : SearchFilters) : Bool :=
  match f.filterForTypes with
  | none => true
  | some ts => ts.contains "PODCASTEPISODE"

/-- The `responseSection` of `buildSearchQuery` (queryBuilder.ts):
search-id and pagination details, then a conditional top-level
podcast-series block and a conditional episode block with its nested
parent-podcast sub-block. -/
def searchResponseSection (f : SearchFilters) (responseFields : List String) :
    String :=
  let s := "searchId\n\t\tresponseDetails \x7b\n\t\t\tid\n\t\t\tpagesCount\n\t\t\ttotalCount\n\t\t\x7d"
  let s :=
    if includesPodcasts f then
      s ++ "\n\t\t\t\tpodcastSeries \x7b\n\t\t\t\t\t" ++
        buildFieldSelection responseFields "podcastSeries" ++ "\n\t\t\t\t\x7d"
    else s
  if includesEpisodes f then
    let podcastSeriesFields := "uuid\n\t\t\t\t\t\tname" ++
      (if responseFields.contains "podcastDescription" then
        "\n\t\t\t\t\t\tdescription" else "") ++
      (if responseFields.contains "podcastImageUrl" then
        "\n\t\t\t\t\t\timageUrl" else "")
    s ++ "\n\t\t\t\tpodcastEpisodes \x7b\n\t\t\t\t\t" ++
      buildFieldSelection responseFields "podcastEpisodes" ++
      "\n\t\t\t\t\tpodcastSeries \x7b\n\t\t\t\t\t\t" ++ podcastSeriesFields ++
      "\n\t\t\t\t\t\x7d\n\t\t\t\t\x7d"
  else s

/-- Embedding of `buildSearchQuery` (queryBuilder.ts): the full query
template with the joined parameter list and the response section. -/
def buildSearchQuery (o : SearchOptions) (f : SearchFilters)
    (responseFields : List String := ["uuid", "name", "description"]) : String :=
  "\n\t\tquery \x7b\n\t\t\tsearch(\n\t\t\t\t" ++
  joinSep ",\n\t\t\t\t" (searchAllParams o f) ++
  "\n\t\t\t) \x7b\n\t\t\t\t" ++ searchResponseSection f responseFields ++
  "\n\t\t\t\x7d\n\t\t\x7d\n\t"

/-- The exclusion string built by `executeSearchContent`
(TaddyApi.node.ts): split on commas, trim, drop empties, prefix each with
a minus sign, join with spaces. -/
def buildExcludeList (excludeTerms : String) : String :=
  joinSep " "
    (((((splitOnChar ',' excludeTerms.data).map (fun g => jsTrimStr ⟨g⟩))).filter
      (fun t => 0 < t.length)).map (fun t => "-" ++ t))

/-- The `finalSearchTerm` computed by `executeSearchContent`
(TaddyApi.node.ts): append the exclusion string when the exclude-terms
input is non-blank and yields at least one exclusion. -/
def finalSearchTerm (searchTerm excludeTerms : String) : String :=
  if excludeTerms ≠ "" ∧ jsTrimStr excludeTerms ≠ "" then
    let excludeList := buildExcludeList excludeTerms
    if excludeList ≠ "" then searchTerm ++ " " ++ excludeList else searchTerm
  else searchTerm

/-- One element of the `responseDetails` array of a raw search response
(resultProcessor.ts); every accessed member may be absent. -/
structure RawResponseDetails where
  id : Option String := none
  totalCount : Option Int := none
  pagesCount : Option Int := none
  deriving Repr, DecidableEq

/-- A raw podcast-series record of the remote response; the processor
copies it wholesale, so only the interface's core members are modelled. -/
structure RawPodcast where
  uuid : Option String := none
  name : Option String := none
  description : Option String := none
  deriving Repr, DecidableEq

/-- A raw podcast-episode record of the remote response. -/
structure RawEpisode where
  uuid : Option String := none
  name : Option String := none
  description : Option String := none
  deriving Repr, DecidableEq

/-- A raw comic-series record of the remote response. -/
structure RawComic where
  uuid : Option String := none
  name : Option String := none
  description : Option String := none
  deriving Repr, DecidableEq

/-- A raw creator record of the remote response. -/
structure RawCreator where
  uuid : Option String := none
  name : Option String := none
  description : Option String := none
  deriving Repr, DecidableEq

/-- The `search` root object of a raw search response (resultProcessor.ts);
each category array may be absent. -/
structure SearchData where
  searchId : Option String := none
  responseDetails : Option (List RawResponseDetails) := none
  podcastSeries : Option (List RawPodcast) := none
  podcastEpisodes : Option (List RawEpisode) := none
  comicSeries : Option (List RawComic) := none
  creators : Option (List RawCreator) := none
  deriving Repr, DecidableEq

/-- A raw search response: the object handed to `processSearchResults`. -/
structure SearchResponse where
  search : Option SearchData := none
  deriving Repr, DecidableEq

/-- The tagged records emitted by `processSearchResults`
(resultProcessor.ts): the synthetic metadata record (discriminant `_type`)
or a payload record (discriminant `type`). -/
inductive ProcessedResult where
  | searchMetadata (searchId responseId : Option String)
      (totalCount pagesCount : Option Int)
  | podcast (p : RawPodcast)
  | episode (e : RawEpisode)
  | comic (c : RawComic)
  | creator (c : RawCreator)
  deriving Repr, DecidableEq

/-- The discriminant value carried by an emitted record (`_type` for the
metadata record, `type` for the others). -/
def ProcessedResult.typeTag : ProcessedResult → String
  | .searchMetadata .. => "search_metadata"
  | .podcast _ => "podcast"
  | .episode _ => "episode"
  | .comic _ => "comic"
  | .creator _ => "creator"

/-- Embedding of `processSearchResults` (resultProcessor.ts): emit the
synthetic metadata record first (fields taken from `responseDetails?.[0]`),
then one tagged record per element of each present category array.  The
function is total: no input makes it raise an error. -/
def processSearchResults (data : SearchResponse) : List ProcessedResult :=
  match data.search with
  | none => []
  | some searchData =>
    let responseDetails : Option RawResponseDetails :=
      match searchData.responseDetails with
      | none => none
      | some l => l.head?
    ProcessedResult.searchMetadata searchData.searchId
        (responseDetails.bind RawResponseDetails.id)
        (responseDetails.bind RawResponseDetails.totalCount)
        (responseDetails.bind RawResponseDetails.pagesCount) ::
      ((searchData.podcastSeries.getD []).map ProcessedResult.podcast ++
       (searchData.podcastEpisodes.getD []).map ProcessedResult.episode ++
       (searchData.comicSeries.getD []).map ProcessedResult.comic ++
       (searchData.creators.getD []).map ProcessedResult.creator)

/-- The object handed to `processPodcastSeriesResult`: the response's
`getPodcastSeries` root field, absent or null when nothing matched. -/
structure PodcastLookupResponse where
  getPodcastSeries : Option RawPodcast := none
  deriving Repr, DecidableEq

/-- Embedding of `processPodcastSeriesResult` (resultProcessor.ts): throw
`Podcast not found` on a null or absent root field, otherwise tag the
record. -/
def processPodcastSeriesResult (data : PodcastLookupResponse) :
    Except String ProcessedResult :=
  match data.getPodcastSeries with
  | none => .error "Podcast not found"
  | some podcast => .ok (.podcast podcast)

/-- One raw transcript line of a `getEpisodeTranscript` response. -/
structure RawTranscriptItem where
  id : Option String := none
  text : Option String := none
  speaker : Option String := none
  startTimecode : Option Int := none
  endTimecode : Option Int := none
  deriving Repr, DecidableEq

/-- One emitted transcript record: the raw line plus the
`transcript_item` discriminant. -/
structure TranscriptItem where
  type : String
  id : Option String := none
  text : Option String := none
  speaker : Option String := none
  startTimecode : Option Int := none
  endTimecode : Option Int := none
  deriving Repr, DecidableEq

/-- The object handed to `processTranscriptResult`: its
`getEpisodeTranscript` root field is an array, or null/absent.  (The
source also rejects a present non-array value with the same error; in
this typed embedding a present value is always an array.) -/
structure TranscriptResponse where
  getEpisodeTranscript : Option (List RawTranscriptItem) := none
  deriving Repr, DecidableEq

/-- Embedding of `processTranscriptResult` (resultProcessor.ts): throw
`Transcript not found or not available` when the root field is null,
absent or not an array; otherwise map each line to a tagged record. -/
def processTranscriptResult (data : TranscriptResponse) :
    Except String (List TranscriptItem) :=
  match data.getEpisodeTranscript with
  | none => .error "Transcript not found or not available"
  | some items => .ok (items.map fun i =>
      { type := "transcript_item", id := i.id, text := i.text,
        speaker := i.speaker, startTimecode := i.startTimecode,
        endTimecode := i.endTimecode })

/-- The query assembled by `executeSearchContent` (TaddyApi.node.ts) for
the scenario input `{term: "Joe Rogan", excludeTerms: "crypto",
contentTypes: ["PODCASTEPISODE"], page: 1, limitPerPage: 10}` with the
default response fields and the documented default sort and match modes:
the handler builds `finalSearchTerm`, sanitizes it, validates pagination
and passes `contentTypes` as `filterForTypes`. -/
def searchScenarioQuery : String :=
  buildSearchQuery
    { term := sanitizeSearchTerm (finalSearchTerm "Joe Rogan" "crypto"),
      page := some (validatePaginationParams (some 1) (some 10)).1,
      limitPerPage := some (validatePaginationParams (some 1) (some 10)).2,
      sortBy := some "POPULARITY", matchType := some "MOST_TERMS" }
    { filterForTypes := some ["PODCASTEPISODE"] }
    ["uuid", "name", "description"]

/-! Helper lemmas about `dropWhile` and `jsTrim`. -/

theorem dropWhile_idem (p : α → Bool) (l : List α) :
    (l.dropWhile p).dropWhile p = l.dropWhile p := by
  induction l with
  | nil => rfl
  | cons c cs ih => cases hc : p c <;> simp [List.dropWhile_cons, hc, ih]

theorem head_dropWhile_false {p : α → Bool} {l : List α} {x : α}
    (h : (l.dropWhile p).head? = some x) : p x = false := by
  have hm := List.head?_dropWhile_not p l
  rw [h] at hm
  exact hm

theorem dropWhile_eq_self_of_head {p : α → Bool} {l : List α}
    (h : ∀ x, l.head? = some x → p x = false) : l.dropWhile p = l := by
  cases l with
  | nil => rfl
  | cons c cs => simp [List.dropWhile_cons, h c rfl]

theorem jsTrim_head {l : List Char} {x : Char} (h : (jsTrim l).head? = some x) :
    jsWhitespace x = false := by
  unfold jsTrim at h
  rw [List.head?_reverse] at h
  have hsuf := List.dropWhile_suffix (l := (l.dropWhile jsWhitespace).reverse)
    jsWhitespace
  obtain ⟨u, hu⟩ := hsuf
  have hlast : (l.dropWhile jsWhitespace).reverse.getLast? = some x := by
    rw [← hu, List.getLast?_append, h]
    rfl
  rw [List.getLast?_reverse] at hlast
  exact head_dropWhile_false hlast

theorem jsTrim_getLast {l : List Char} {x : Char}
    (h : (jsTrim l).getLast? = some x) : jsWhitespace x = false := by
  unfold jsTrim at h
  rw [List.getLast?_reverse] at h
  exact head_dropWhile_false h

theorem jsTrim_eq_self {l : List Char}
    (h1 : ∀ x, l.head? = some x → jsWhitespace x = false)
    (h2 : ∀ x, l.getLast? = some x → jsWhitespace x = false) :
    jsTrim l = l := by
  unfold jsTrim
  rw [dropWhile_eq_self_of_head h1]
  rw [dropWhile_eq_self_of_head
    (fun x hx => h2 x (by rwa [List.head?_reverse] at hx))]
  exact l.reverse_reverse

theorem jsTrim_idem (l : List Char) : jsTrim (jsTrim l) = jsTrim l :=
  jsTrim_eq_self (fun _ hx => jsTrim_head hx) (fun _ hx => jsTrim_getLast hx)

theorem mem_of_mem_jsTrim {a : Char} {l : List Char} (h : a ∈ jsTrim l) :
    a ∈ l := by
  unfold jsTrim at h
  rw [List.mem_reverse] at h
  have h2 := (List.dropWhile_sublist jsWhitespace).subset h
  rw [List.mem_reverse] at h2
  exact (List.dropWhile_sublist jsWhitespace).subset h2

/-! The claim theorems. -/

/-- C8: `sanitizeSearchTerm` is idempotent — applying it twice to any
input string yields the same result as applying it once. -/
theorem sanitizeSearchTerm_idem (s : String) :
    sanitizeSearchTerm (sanitizeSearchTerm s) = sanitizeSearchTerm s := by
  unfold sanitizeSearchTerm
  have hdata : (String.mk (jsTrim (s.data.filter fun c => !sanitizedChar c))).data
      = jsTrim (s.data.filter fun c => !sanitizedChar c) := rfl
  rw [hdata]
  have hfil : (jsTrim (s.data.filter fun c => !sanitizedChar c)).filter
      (fun c => !sanitizedChar c) = jsTrim (s.data.filter fun c => !sanitizedChar c) := by
    apply List.filter_eq_self.mpr
    intro a ha
    exact (List.mem_filter.mp (mem_of_mem_jsTrim ha)).2
  rw [hfil, jsTrim_idem]

/-- C2: `validatePaginationParams` is total; for every pair of optional
integer inputs it returns a page in [1,20] and a limit in [1,25]; absent
inputs default to page 1 and limit 10, and the spec's example
`validatePaginationParams(-5, 999)` yields `{page: 1, limitPerPage: 25}`. -/
theorem validatePaginationParams_total :
    (∀ page limitPerPage : Option Int,
      1 ≤ (validatePaginationParams page limitPerPage).1 ∧
      (validatePaginationParams page limitPerPage).1 ≤ 20 ∧
      1 ≤ (validatePaginationParams page limitPerPage).2 ∧
      (validatePaginationParams page limitPerPage).2 ≤ 25) ∧
    validatePaginationParams none none = (1, 10) ∧
    validatePaginationParams (some (-5)) (some 999) = (1, 25) := by
  refine ⟨fun page limitPerPage => ?_, by decide, by decide⟩
  unfold validatePaginationParams
  exact ⟨le_max_left _ _, max_le (by norm_num) (min_le_left _ _),
    le_max_left _ _, max_le (by norm_num) (min_le_left _ _)⟩

theorem contains_iff_mem {l : List String} {a : String} :
    l.contains a = true ↔ a ∈ l := by
  simp [List.contains, List.elem_eq_mem]

theorem mem_ensure_uuid (l : List String) :
    "uuid" ∈ (if l.contains "uuid" then l else "uuid" :: l) := by
  by_cases h : "uuid" ∈ l <;> simp [h]

/-- C1 (corrected): in the field lists assembled by
`buildPodcastSeriesFieldSelection` and `buildEpisodeFieldSelection`, the
`uuid` entry is always present; when the caller's selection omits `uuid`,
it is prepended, so it is the first entry and occurs exactly once.  (When
the caller already lists `uuid`, its position and multiplicity are kept
as given, so it need not be first.) -/
theorem uuid_field_position (fields : List String) :
    "uuid" ∈ podcastSeriesFieldList fields ∧
    "uuid" ∈ episodeFieldList fields ∧
    ("uuid" ∉ fields →
      (podcastSeriesFieldList fields).head? = some "uuid" ∧
      (podcastSeriesFieldList fields).count "uuid" = 1 ∧
      (episodeFieldList fields).head? = some "uuid" ∧
      (episodeFieldList fields).count "uuid" = 1) := by
  refine ⟨mem_ensure_uuid _, mem_ensure_uuid _, fun hno => ?_⟩
  have hp : "uuid" ∉ fields.filter
      (fun field => (PODCAST_SERIES_FIELD_KEYS.filter
        (fun f => f ≠ "genres" && f ≠ "episodes")).contains field) :=
    fun hmem => hno (List.mem_filter.mp hmem).1
  have he : "uuid" ∉ fields.filter
      (fun field => (PODCAST_EPISODE_FIELD_KEYS.filter
        (fun f => f ≠ "podcastSeries" && f ≠ "transcript" && f ≠ "chapters")).contains field) :=
    fun hmem => hno (List.mem_filter.mp hmem).1
  have hcp : (fields.filter
      (fun field => (PODCAST_SERIES_FIELD_KEYS.filter
        (fun f => f ≠ "genres" && f ≠ "episodes")).contains field)).contains "uuid" = false := by
    cases hc : List.contains _ "uuid"
    · rfl
    · exact absurd (contains_iff_mem.mp hc) hp
  have hce : (fields.filter
      (fun field => (PODCAST_EPISODE_FIELD_KEYS.filter
        (fun f => f ≠ "podcastSeries" && f ≠ "transcript" && f ≠ "chapters")).contains field)).contains "uuid" = false := by
    cases hc : List.contains _ "uuid"
    · rfl
    · exact absurd (contains_iff_mem.mp hc) he
  simp only [podcastSeriesFieldList, episodeFieldList, hcp, hce]
  rw [if_neg (by simp), if_neg (by simp)]
  refine ⟨rfl, ?_, rfl, ?_⟩
  · rw [List.count_cons_self, List.count_eq_zero.mpr hp]
  · rw [List.count_cons_self, List.count_eq_zero.mpr he]

/-- C1 counterexample: when the caller's selection already contains
`uuid` after another field, the assembled list keeps it in place, so the
identifier entry is not the first field — refuting the claim as stated. -/
theorem uuid_field_position_cex :
    (podcastSeriesFieldList ["name", "uuid"]).head? ≠ some "uuid" ∧
    (episodeFieldList ["name", "uuid"]).head? ≠ some "uuid" := by decide

/-- C1 witness: a selection omitting `uuid` gets it prepended, first and
exactly once. -/
theorem uuid_field_position_witness :
    "uuid" ∈ podcastSeriesFieldList ["name"] ∧
    (podcastSeriesFieldList ["name"]).head? = some "uuid" ∧
    (podcastSeriesFieldList ["name"]).count "uuid" = 1 ∧
    (episodeFieldList ["name"]).head? = some "uuid" ∧
    (episodeFieldList ["name"]).count "uuid" = 1 :=
  ⟨(uuid_field_position ["name"]).1,
   ((uuid_field_position ["name"]).2.2 (by decide)).1,
   ((uuid_field_position ["name"]).2.2 (by decide)).2.1,
   ((uuid_field_position ["name"]).2.2 (by decide)).2.2.1,
   ((uuid_field_position ["name"]).2.2 (by decide)).2.2.2⟩

theorem not_mem_buildFieldSelectionList {x : String} {fields : List String}
    {ct : String} (hx : x ≠ "uuid")
    (hp : (if ct = "podcastEpisodes" && podcastOnlyFields.contains x then false
           else if ct = "podcastSeries" && episodeOnlyFields.contains x then false
           else true) = false) :
    x ∉ buildFieldSelectionList fields ct := by
  intro hmem
  have hfil : ∀ hm : x ∈ fields.filter (fun field =>
      if ct = "podcastEpisodes" && podcastOnlyFields.contains field then false
      else if ct = "podcastSeries" && episodeOnlyFields.contains field then false
      else true), False := by
    intro hm
    have := (List.mem_filter.mp hm).2
    rw [hp] at this
    cases this
  simp only [buildFieldSelectionList] at hmem
  split at hmem
  · exact hfil hmem
  · cases hmem with
    | head => exact hx rfl
    | tail _ hm => exact hfil hm

/-- C10: `websiteUrl` is listed in both the episode-only and the
podcast-only exclusion lists of `buildFieldSelection`, so for every
field-selection input containing it, the assembled field list of the
search query's podcast-series block and that of its episode block both
omit `websiteUrl`. -/
theorem websiteUrl_excluded_everywhere (fields : List String)
    (h : "websiteUrl" ∈ fields) :
    "websiteUrl" ∈ episodeOnlyFields ∧
    "websiteUrl" ∈ podcastOnlyFields ∧
    "websiteUrl" ∉ buildFieldSelectionList fields "podcastSeries" ∧
    "websiteUrl" ∉ buildFieldSelectionList fields "podcastEpisodes" :=
  ⟨by decide, by decide,
   not_mem_buildFieldSelectionList (by decide) (by decide),
   not_mem_buildFieldSelectionList (by decide) (by decide)⟩

/-- C10 witness: concrete selection containing `websiteUrl`. -/
theorem websiteUrl_excluded_everywhere_witness :
    "websiteUrl" ∉ buildFieldSelectionList ["websiteUrl", "name"] "podcastSeries" ∧
    "websiteUrl" ∉ buildFieldSelectionList ["websiteUrl", "name"] "podcastEpisodes" :=
  ⟨(websiteUrl_excluded_everywhere ["websiteUrl", "name"] (by decide)).2.2.1,
   (websiteUrl_excluded_everywhere ["websiteUrl", "name"] (by decide)).2.2.2⟩

/-- C3 counterexample: a response whose `getEpisodeTranscript` field is
the empty array is returned as a successful empty list, not raised as a
not-found error — refuting the claim as stated. -/
theorem processTranscriptResult_empty_ok :
    processTranscriptResult { getEpisodeTranscript := some [] } =
      .ok ([] : List TranscriptItem) := rfl

/-- C3 (corrected): `processTranscriptResult` raises the not-found error
exactly when the `getEpisodeTranscript` root field is null or absent; a
present (empty or non-empty) array is mapped to a successful list of
tagged transcript items. -/
theorem processTranscriptResult_spec :
    (∀ data : TranscriptResponse,
      processTranscriptResult data =
          .error "Transcript not found or not available" ↔
        data.getEpisodeTranscript = none) ∧
    processTranscriptResult { getEpisodeTranscript := some [] } =
      .ok ([] : List TranscriptItem) := by
  refine ⟨fun data => ?_, rfl⟩
  obtain ⟨field⟩ := data
  cases field <;> simp [processTranscriptResult]

/-- C4: `processPodcastSeriesResult` raises the not-found error exactly
when the `getPodcastSeries` root field is null or absent, while
`processSearchResults` on a response whose `search.podcastSeries` is the
empty array emits zero podcast-tagged records (it is a total function, so
no error can be raised). -/
theorem notFound_vs_emptySearch :
    (∀ resp : PodcastLookupResponse,
      processPodcastSeriesResult resp = .error "Podcast not found" ↔
        resp.getPodcastSeries = none) ∧
    (∀ (data : SearchResponse) (sd : SearchData),
      data.search = some sd → sd.podcastSeries = some [] →
      ((processSearchResults data).countP
        (fun r => r.typeTag == "podcast")) = 0) := by
  constructor
  · intro resp
    obtain ⟨field⟩ := resp
    cases field <;> simp [processPodcastSeriesResult]
  · intro data sd h1 h2
    obtain ⟨s⟩ := data
    cases h1
    rw [List.countP_eq_zero]
    intro a ha
    simp only [processSearchResults, h2, Option.getD_some, List.map_nil,
      List.nil_append, List.mem_cons, List.mem_append, List.mem_map] at ha
    rcases ha with rfl | ((⟨e, _, rfl⟩ | ⟨c, _, rfl⟩) | ⟨cr, _, rfl⟩) <;>
      simp [ProcessedResult.typeTag]

/-- C4 witness: the two branches at concrete inputs. -/
theorem notFound_vs_emptySearch_witness :
    (processPodcastSeriesResult { getPodcastSeries := none } =
      .error "Podcast not found") ∧
    ((processSearchResults
        { search := some { podcastSeries := some [] } }).countP
      (fun r => r.typeTag == "podcast")) = 0 :=
  ⟨(notFound_vs_emptySearch.1 { getPodcastSeries := none }).mpr rfl,
   notFound_vs_emptySearch.2 { search := some { podcastSeries := some [] } }
     { podcastSeries := some [] } rfl rfl⟩

/-- C6: when the raw search response carries a non-empty
`responseDetails` array, the first record emitted by
`processSearchResults` is the synthetic metadata record (discriminant
`search_metadata`), with `totalCount` and `pagesCount` copied from the
first element of that array. -/
theorem searchMetadata_first (data : SearchResponse) (sd : SearchData)
    (d : RawResponseDetails) (rest : List RawResponseDetails)
    (h1 : data.search = some sd) (h2 : sd.responseDetails = some (d :: rest)) :
    (processSearchResults data).head? =
      some (.searchMetadata sd.searchId d.id d.totalCount d.pagesCount) ∧
    (ProcessedResult.searchMetadata sd.searchId d.id d.totalCount
      d.pagesCount).typeTag = "search_metadata" := by
  refine ⟨?_, rfl⟩
  obtain ⟨s⟩ := data
  cases h1
  simp [processSearchResults, h2]

/-- C6 witness: a concrete response with one pagination-details record. -/
theorem searchMetadata_first_witness :
    (processSearchResults { search := some { searchId := some "s1", responseDetails := some [{ id := some "r1", totalCount := some 42, pagesCount := some 5 }] } }).head? =
      some (.searchMetadata (some "s1") (some "r1") (some 42) (some 5)) :=
  (searchMetadata_first
    { search := some { searchId := some "s1", responseDetails := some [{ id := some "r1", totalCount := some 42, pagesCount := some 5 }] } }
    { searchId := some "s1", responseDetails := some [{ id := some "r1", totalCount := some 42, pagesCount := some 5 }] }
    { id := some "r1", totalCount := some 42, pagesCount := some 5 } []
    rfl rfl).1

theorem append_ne_of_not_prefix {a b : String} (x : String)
    (h : ¬ (a.data <+: b.data)) : a ++ x ≠ b := by
  intro he
  apply h
  rw [← he, String.data_append]
  exact List.prefix_append _ _

theorem not_mem_countryErrors {b : String}
    (h : ¬ (("Invalid country code: ").data <+: b.data)) (f : SearchFilters) :
    b ∉ countryErrors f := by
  unfold countryErrors
  cases f.filterForCountries with
  | none => simp
  | some cs =>
    intro hmem
    obtain ⟨c, -, hc⟩ := List.mem_map.mp hmem
    exact append_ne_of_not_prefix c h hc

theorem not_mem_languageErrors {b : String}
    (h : ¬ (("Invalid language code: ").data <+: b.data)) (f : SearchFilters) :
    b ∉ languageErrors f := by
  unfold languageErrors
  cases f.filterForLanguages with
  | none => simp
  | some ls =>
    intro hmem
    obtain ⟨c, -, hc⟩ := List.mem_map.mp hmem
    exact append_ne_of_not_prefix c h hc

theorem not_mem_uuidErrors {b : String}
    (h : ¬ (("Invalid UUID: ").data <+: b.data)) (f : SearchFilters) :
    b ∉ uuidErrors f := by
  unfold uuidErrors
  cases f.filterForSeriesUuids with
  | none => simp
  | some us =>
    intro hmem
    obtain ⟨c, -, hc⟩ := List.mem_map.mp hmem
    exact append_ne_of_not_prefix c h hc

theorem eq_of_mem_dateError {b msg : String} {v : Option Int}
    (h : b ∈ dateError v msg) : b = msg := by
  cases v with
  | none => simp [dateError] at h
  | some n =>
    simp only [dateError] at h
    by_cases hc : (n ≠ 0 && !validateDateString n) = true
    · rw [if_pos hc] at h
      exact List.mem_singleton.mp h
    · rw [if_neg hc] at h
      cases h

theorem eq_of_mem_durationError {b msg : String} {v : Option Int}
    (h : b ∈ durationError v msg) : b = msg := by
  cases v with
  | none => simp [durationError] at h
  | some n =>
    simp only [durationError] at h
    by_cases hc : (!validateDuration n) = true
    · rw [if_pos hc] at h
      exact List.mem_singleton.mp h
    · rw [if_neg hc] at h
      cases h

theorem not_validateDuration_iff (n : Int) :
    (!validateDuration n) = true ↔ ¬(0 < n ∧ n ≤ 86400) := by
  simp [validateDuration]
  omega

theorem mem_durationError_iff {msg : String} {v : Option Int} :
    msg ∈ durationError v msg ↔
      ∃ d, v = some d ∧ ¬(0 < d ∧ d ≤ 86400) := by
  cases v with
  | none => simp [durationError]
  | some n =>
    simp only [durationError]
    by_cases hc : (!validateDuration n) = true
    · rw [if_pos hc]
      simp only [List.mem_singleton, true_iff]
      exact ⟨n, rfl, (not_validateDuration_iff n).mp hc⟩
    · rw [if_neg hc]
      simp only [List.not_mem_nil, false_iff]
      rintro ⟨d, hd, hval⟩
      have hnd : n = d := by injection hd
      subst hnd
      exact hc ((not_validateDuration_iff n).mpr hval)

/-- C9 counterexample: a positive duration bound above 86400 seconds does
produce an error entry, refuting the claim that any positive bound is
accepted. -/
theorem validateFilterValues_duration_cex :
    validateFilterValues { filterForDurationLessThan := some 86401 } =
      ["Invalid duration less than value"] ∧ (0 : Int) < 86401 := by
  constructor
  · rfl
  · decide

/-- C9 (corrected): `validateFilterValues` reports an error for a present
duration bound exactly when that bound lies outside (0, 86400] — the
check is `validateDuration`, which also rejects bounds above 24 hours,
not positivity alone. -/
theorem validateFilterValues_duration (f : SearchFilters) :
    ("Invalid duration less than value" ∈ validateFilterValues f ↔
      ∃ d, f.filterForDurationLessThan = some d ∧ ¬(0 < d ∧ d ≤ 86400)) ∧
    ("Invalid duration greater than value" ∈ validateFilterValues f ↔
      ∃ d, f.filterForDurationGreaterThan = some d ∧ ¬(0 < d ∧ d ≤ 86400)) := by
  constructor
  · unfold validateFilterValues
    simp only [List.mem_append]
    constructor
    · intro h
      rcases h with ((((((((h | h) | h) | h) | h) | h) | h) | h) | h)
      · exact absurd h (not_mem_countryErrors (by decide) f)
      · exact absurd h (not_mem_languageErrors (by decide) f)
      · exact absurd h (not_mem_uuidErrors (by decide) f)
      · exact absurd (eq_of_mem_dateError h) (by decide)
      · exact absurd (eq_of_mem_dateError h) (by decide)
      · exact absurd (eq_of_mem_dateError h) (by decide)
      · exact absurd (eq_of_mem_dateError h) (by decide)
      · exact mem_durationError_iff.mp h
      · exact absurd (eq_of_mem_durationError h) (by decide)
    · intro h
      exact Or.inl (Or.inr (mem_durationError_iff.mpr h))
  · unfold validateFilterValues
    simp only [List.mem_append]
    constructor
    · intro h
      rcases h with ((((((((h | h) | h) | h) | h) | h) | h) | h) | h)
      · exact absurd h (not_mem_countryErrors (by decide) f)
      · exact absurd h (not_mem_languageErrors (by decide) f)
      · exact absurd h (not_mem_uuidErrors (by decide) f)
      · exact absurd (eq_of_mem_dateError h) (by decide)
      · exact absurd (eq_of_mem_dateError h) (by decide)
      · exact absurd (eq_of_mem_dateError h) (by decide)
      · exact absurd (eq_of_mem_dateError h) (by decide)
      · exact absurd (eq_of_mem_durationError h) (by decide)
      · exact mem_durationError_iff.mp h
    · intro h
      exact Or.inr (mem_durationError_iff.mpr h)

theorem mem_infix_joinSep {x : String} {l : List String} (sep : String)
    (h : x ∈ l) : x.data <:+: (joinSep sep l).data := by
  induction l with
  | nil => cases h
  | cons s ss ih =>
    cases ss with
    | nil =>
      rcases List.mem_cons.mp h with rfl | h2
      · exact List.infix_refl _
      · cases h2
    | cons s2 ss2 =>
      rcases List.mem_cons.mp h with rfl | h2
      · show x.data <:+: (x ++ sep ++ joinSep sep (s2 :: ss2)).data
        simp only [String.data_append, List.append_assoc]
        exact List.IsPrefix.isInfix (List.prefix_append _ _)
      · have hrest := ih h2
        refine hrest.trans ?_
        show (joinSep sep (s2 :: ss2)).data <:+:
          (s ++ sep ++ joinSep sep (s2 :: ss2)).data
        simp only [String.data_append]
        exact List.IsSuffix.isInfix (List.suffix_append _ _)

theorem param_infix_buildSearchQuery {x : String} (o : SearchOptions)
    (f : SearchFilters) (rf : List String)
    (h : x ∈ searchAllParams o f) :
    x.data <:+: (buildSearchQuery o f rf).data := by
  refine (mem_infix_joinSep ",\n\t\t\t\t" h).trans ?_
  unfold buildSearchQuery
  simp only [String.data_append, List.append_assoc]
  exact ⟨("\n\t\tquery \x7b\n\t\t\tsearch(\n\t\t\t\t").data,
    ("\n\t\t\t) \x7b\n\t\t\t\t").data ++
      ((searchResponseSection f rf).data ++ ("\n\t\t\t\x7d\n\t\t\x7d\n\t").data),
    by simp [List.append_assoc]⟩

/-- C5: in the query text produced by `buildSearchQuery`, a one-element
`filterForTypes` list is rendered as a bare scalar argument and a list of
two or more elements is rendered bracketed and comma-separated. -/
theorem filterForTypes_rendering :
    (∀ (o : SearchOptions) (f : SearchFilters) (rf : List String)
       (t : String), f.filterForTypes = some [t] →
      ("filterForTypes: " ++ t).data <:+: (buildSearchQuery o f rf).data) ∧
    (∀ (o : SearchOptions) (f : SearchFilters) (rf : List String)
       (t1 t2 : String) (ts : List String),
      f.filterForTypes = some (t1 :: t2 :: ts) →
      ("filterForTypes: [" ++ joinSep ", " (t1 :: t2 :: ts) ++ "]").data <:+:
        (buildSearchQuery o f rf).data) := by
  constructor
  · intro o f rf t hf
    apply param_infix_buildSearchQuery
    have : typesParams f = ["filterForTypes: " ++ t] := by
      simp [typesParams, hf]
    unfold searchAllParams
    simp [this]
  · intro o f rf t1 t2 ts hf
    apply param_infix_buildSearchQuery
    have : typesParams f =
        ["filterForTypes: [" ++ joinSep ", " (t1 :: t2 :: ts) ++ "]"] := by
      simp [typesParams, hf]
    unfold searchAllParams
    simp [this]

/-- C5 witness: the spec's concrete examples for one and two content
types. -/
theorem filterForTypes_rendering_witness :
    ("filterForTypes: PODCASTSERIES").data <:+:
      (buildSearchQuery { term := "a" }
        { filterForTypes := some ["PODCASTSERIES"] } ["uuid"]).data ∧
    ("filterForTypes: [PODCASTSERIES, PODCASTEPISODE]").data <:+:
      (buildSearchQuery { term := "a" }
        { filterForTypes := some ["PODCASTSERIES", "PODCASTEPISODE"] }
        ["uuid"]).data :=
  ⟨filterForTypes_rendering.1 { term := "a" }
      { filterForTypes := some ["PODCASTSERIES"] } ["uuid"]
      "PODCASTSERIES" rfl,
   filterForTypes_rendering.2 { term := "a" }
      { filterForTypes := some ["PODCASTSERIES", "PODCASTEPISODE"] } ["uuid"]
      "PODCASTSERIES" "PODCASTEPISODE" [] rfl⟩

set_option maxRecDepth 10000 in
/-- C7: for the scenario input `{term: "Joe Rogan", excludeTerms:
"crypto", contentTypes: ["PODCASTEPISODE"], page: 1, limitPerPage: 10}`,
the sanitized term embedded in the assembled query text is
`Joe Rogan -crypto`, the query's response selection contains a
`podcastEpisodes` block, and it contains no top-level `podcastSeries`
block (the four-tab-indented one emitted for podcast-series results). -/
theorem searchContentScenario :
    sanitizeSearchTerm (finalSearchTerm "Joe Rogan" "crypto") =
      "Joe Rogan -crypto" ∧
    ("term: \"Joe Rogan -crypto\"").data <:+: searchScenarioQuery.data ∧
    ("\n\t\t\t\tpodcastEpisodes \x7b").data <:+: searchScenarioQuery.data ∧
    ¬ (("\n\t\t\t\tpodcastSeries \x7b").data <:+: searchScenarioQuery.data) := by
  refine ⟨by decide, by decide, by decide, by decide⟩

end Taddy
